import Mathlib

/-!
# A shallow embedding of the finit service state machine (src/service.c)

This file models the per-service state machine of the finit init/supervisor:
the crash-respawn retry logic (`service_retry`), the forced-kill and retry
timers (`service_timeout_after` / `service_timeout_cancel` / `svc_set_state`),
the start/stop/restart operations (`service_start`, `service_stop`,
`service_restart`, `service_kill`), the transition function (`service_step`)
and the runlevel-change cleanup of run/task services
(`service_runtask_clean`).

Pure data manipulated by these functions is embedded directly; interactions
with the operating system (fork, kill(2), pid files, the inetd socket layer
and the deferred work queue) are recorded as an explicit list of `Action`s,
and the external inputs the code consults (active runlevel membership, the
condition aggregate, the reload teardown flag, the global no-respawn flag,
the pid returned by fork, the exit status of a sequential `run` command) are
fields of an `Env` record.

Declarations that correspond to code in headers that accompany `service.c`
(`svc.h`, `cond.h`, `sm.h`, `finit.h`) but are not part of the sources being
verified carry a doc comment starting `Modelled from the spec:`.
-/

namespace Finit

/-- Modelled from the spec: the condition tri-state `{on, off, flux}`
(`cond_state_t` of cond.h). -/
inductive CondState
  | on
  | off
  | flux
deriving DecidableEq, Repr

/-- Modelled from the spec: the per-service states
{halted, ready, running, waiting, stopping, done} (`svc_state_t` of svc.h). -/
inductive SvcState
  | halted
  | done
  | stopping
  | waiting
  | ready
  | running
deriving DecidableEq, Repr

/-- Modelled from the spec: the numeric value of each `svc_state_t`
enumerator.  svc.h is not among the verified sources, so the numbering is
fixed by what `service.c` requires of it: `service_stop` early-returns when
`state <= SVC_STOPPING_STATE`, and the `running → stopping` and
`waiting → stopping` transitions of `service_step` go through `service_stop`,
so `running` and `waiting` must be numerically above `stopping`; `halted` is
the initial (zeroed) state.  The positions of `done` and `ready` follow the
upstream header layout; nothing in `service.c` or the spec pins `ready`
relative to `stopping`. -/
def stateVal : SvcState → Nat
  | .halted => 0
  | .done => 1
  | .stopping => 2
  | .waiting => 3
  | .ready => 4
  | .running => 5

/-- Modelled from the spec: the five service kinds (`svc_type_t` of svc.h). -/
inductive SvcType
  | service
  | task
  | run
  | inetd
  | inetdConn
deriving DecidableEq, Repr

/-- Modelled from the spec: the block/reason marks a service can carry while
halted (`svc_block_t` of svc.h): none, missing binary, crashed (respawn
ceiling hit), stopped by the user/manual, busy (inetd), or restarting
(crash-respawn in progress). -/
inductive SvcBlock
  | noBlock
  | missing
  | crashing
  | user
  | busy
  | restarting
deriving DecidableEq, Repr

/-- The two callbacks `service.c` ever hands to `service_timeout_after`:
`service_retry` (crash-respawn) and `service_kill` (forced SIGKILL). -/
inductive TimerCb
  | retryCb
  | killCb
deriving DecidableEq, Repr

/-- Signals `service.c` delivers to supervised processes. -/
inductive Sig
  | term
  | sigkill
  | sigstop
  | sigcont
  | hup
deriving DecidableEq, Repr

/-- Externally visible side effects of the embedded functions. -/
inductive Action
  | signal (pid : Nat) (sig : Sig)
  | forkExec (pid : Nat)
  | pidFileCreate
  | pidFileTouch
  | pidFileRemove
  | condSetOwn
  | inetdStartListener
  | inetdStopListener
  | inetdStopChildren
  | scheduleWork
deriving DecidableEq, Repr

/-- The subset of `svc_t` (svc.h) that `service.c` reads and writes in the
modelled paths.  `timer` is the single libuev timer slot together with its
registered callback (`svc->timer` / `svc->timer_cb`); `dirty` is the
changed-on-reload flag queried by `svc_is_changed`; `status` is the exit
status recorded when the child is reaped. -/
structure Svc where
  type : SvcType
  state : SvcState := .halted
  block : SvcBlock := .noBlock
  pid : Nat := 0
  restart_cnt : Nat := 0
  once : Nat := 0
  dirty : Bool := false
  sighup : Bool := false
  starting : Bool := false
  has_pidfile : Bool := false
  inetd_builtin : Bool := false
  status : Nat := 0
  removed : Bool := false
  timer : Option (Nat × TimerCb) := Option.none
deriving DecidableEq, Repr

/-- The external inputs consulted by `service.c`: whether the service is in
the active runlevel (`svc_in_runlevel`), the condition aggregate
(`cond_get_agg(svc->cond)`), the reload teardown flag (`sm_is_in_teardown`),
the global no-respawn flag (`is_norespawn`), whether the binary resolves in
PATH (`whichp(svc->cmd)`), the pid fork returns in the parent, and the exit
status `complete()` collects for a sequential `run` command. -/
structure Env where
  in_runlevel : Bool
  cond : CondState
  in_teardown : Bool
  norespawn : Bool
  which : Bool
  fork_pid : Nat
  run_status : Nat
deriving DecidableEq, Repr

/-- `RESPAWN_MAX` of service.c: hard ceiling on crash respawns. -/
def RESPAWN_MAX : Nat := 10

/-- Modelled from the spec: `SVC_TERM_TIMEOUT` (finit.h), the forced-kill
timeout after SIGTERM, default 5 s (5000 ms). -/
def SVC_TERM_TIMEOUT : Nat := 5000

/-- Modelled from the spec: `svc_is_daemon` of svc.h. -/
abbrev svc_is_daemon (svc : Svc) : Prop := svc.type = .service

/-- Modelled from the spec: `svc_is_runtask` of svc.h (one-shot task or
sequential run). -/
abbrev svc_is_runtask (svc : Svc) : Prop := svc.type = .task ∨ svc.type = .run

/-- Modelled from the spec: `svc_is_inetd` of svc.h. -/
abbrev svc_is_inetd (svc : Svc) : Prop := svc.type = .inetd

/-- Modelled from the spec: `svc_is_inetd_conn` of svc.h. -/
abbrev svc_is_inetd_conn (svc : Svc) : Prop := svc.type = .inetdConn

/-- Modelled from the spec: `svc_is_changed` of svc.h, the dirty flag set on
changed records during reload. -/
abbrev svc_is_changed (svc : Svc) : Prop := svc.dirty = true

/-- Modelled from the spec: `svc_mark_clean` of svc.h. -/
def svc_mark_clean (svc : Svc) : Svc := { svc with dirty := false }

/-- Modelled from the spec: `svc_missing` of svc.h, marks a service whose
binary cannot be resolved in PATH. -/
def svc_missing (svc : Svc) : Svc := { svc with block := .missing }

/-- Modelled from the spec: `svc_crashing` of svc.h, marks a service that
exhausted its respawn budget. -/
def svc_crashing (svc : Svc) : Svc := { svc with block := .crashing }

/-- Modelled from the spec: `svc_restarting` of svc.h, the
halted-with-restarting block of the crash-respawn loop. -/
def svc_restarting (svc : Svc) : Svc := { svc with block := .restarting }

/-- Modelled from the spec: `svc_unblock` of svc.h. -/
def svc_unblock (svc : Svc) : Svc := { svc with block := .noBlock }

/-- Modelled from the spec: `svc_starting` of svc.h, declares that we are
waiting for the service to create (or re-assert) its pid file. -/
def svc_starting (svc : Svc) : Svc := { svc with starting := true }

/-- Modelled from the spec: `svc_enabled` of svc.h.  Only services whose
runlevel bitmask includes the active runlevel, and which carry no block mark
(missing, crashing, restarting, user/manual, busy), are enabled. -/
abbrev svc_enabled (env : Env) (svc : Svc) : Prop :=
  env.in_runlevel = true ∧ svc.block = .noBlock

/-- `service_timeout_after` of service.c: register `cb` to run after
`timeout` ms.  If a callback is already registered the call fails with
`-EBUSY` (-16) and the pending timer is left untouched; otherwise the single
timer slot is armed and the call returns 0. -/
def service_timeout_after (svc : Svc) (timeout : Nat) (cb : TimerCb) :
    Svc × Int :=
  match svc.timer with
  | Option.some _ => (svc, -16)
  | Option.none => ({ svc with timer := Option.some (timeout, cb) }, 0)

/-- `service_timeout_cancel` of service.c: stop and clear any timer
associated with the service. -/
def service_timeout_cancel (svc : Svc) : Svc × Int :=
  match svc.timer with
  | Option.none => (svc, 0)
  | Option.some _ => ({ svc with timer := Option.none }, 0)

/-- `svc_set_state` of service.c: record the new state; on entry to
`SVC_STOPPING_STATE` for a non-inetd service, cancel any pending timer and
arm the forced-kill timeout (`SVC_TERM_TIMEOUT`, callback `service_kill`). -/
def svc_set_state (svc : Svc) (new : SvcState) : Svc :=
  let svc := { svc with state := new }
  if new = .stopping ∧ ¬ svc_is_inetd svc then
    (service_timeout_after (service_timeout_cancel svc).1
      SVC_TERM_TIMEOUT .killCb).1
  else
    svc

/-- `service_kill` of service.c: timer callback forcing SIGKILL.  Cancels the
timeout bookkeeping, then no-ops if the process was already collected
(`pid <= 1`), else sends SIGKILL. -/
def service_kill (svc : Svc) : Svc × List Action :=
  let svc := (service_timeout_cancel svc).1
  if svc.pid ≤ 1 then
    (svc, [])
  else
    (svc, [Action.signal svc.pid .sigkill])

/-- `service_stop` of service.c: stop a service.  Returns 0 immediately when
the state is already at or below `SVC_STOPPING_STATE`; stops the listener for
inetd services; otherwise cancels any timer, fails with 1 when there is no
process to signal (`pid <= 1`), else transitions to stopping (arming the
forced-kill timer) and sends SIGTERM. -/
def service_stop (svc : Svc) : Svc × List Action × Int :=
  if stateVal svc.state ≤ stateVal .stopping then
    (svc, [], 0)
  else if svc_is_inetd svc then
    (svc_set_state svc .stopping, [Action.inetdStopListener], 0)
  else
    let svc := (service_timeout_cancel svc).1
    if svc.pid ≤ 1 then
      (svc, [], 1)
    else
      (svc_set_state svc .stopping, [Action.signal svc.pid .term], 0)

/-- `service_restart` of service.c: ask a SIGHUP-capable service to reload.
Fails when finit is in no-respawn mode, when the service did not declare
SIGHUP support, or when there is no process; otherwise sends SIGHUP, declares
the pid file awaited, and touches the pid file when finit maintains it. -/
def service_restart (env : Env) (svc : Svc) : Svc × List Action × Int :=
  if env.norespawn then
    (svc, [], 1)
  else if ¬ svc.sighup then
    (svc, [], 1)
  else if svc.pid ≤ 1 then
    ({ svc with pid := 0 }, [], 1)
  else
    let acts := [Action.signal svc.pid .hup]
    let svc := svc_starting svc
    let acts := acts ++ (if svc.has_pidfile then [Action.pidFileTouch] else [])
    (svc, acts, 0)

/-- `service_start` of service.c, parent side.  Refuses in no-respawn mode;
marks the service missing and fails when the binary does not resolve in PATH
(and no built-in inetd callback exists); starts the listener for inetd
services; otherwise forks (the child's exec is recorded as an action, the
parent records the child pid).  A sequential `run` command is awaited at
once: its exit status becomes the result, the pid is cleared, `once` is
bumped and the service is put in stopping; a daemon gets its pid file
created. -/
def service_start (env : Env) (svc : Svc) : Svc × List Action × Nat :=
  if env.norespawn then
    (svc, [], 1)
  else if ¬ env.which ∧ ¬ svc.inetd_builtin then
    (svc_missing svc, [], 1)
  else if svc_is_inetd svc then
    (svc, [Action.inetdStartListener], 0)
  else
    let svc := svc_starting svc
    let svc := { svc with pid := env.fork_pid }
    let acts := [Action.forkExec env.fork_pid]
    match svc.type with
    | .run =>
        let result := env.run_status
        let svc := { svc with pid := 0 }
        let svc := { svc with once := svc.once + 1 }
        (svc_set_state svc .stopping, acts, result)
    | .service =>
        (svc, acts ++ [Action.pidFileCreate], 0)
    | _ =>
        (svc, acts, 0)

/-- One pass of the `switch (svc->state)` body of `service_step` of
service.c.  Returns the updated service, the actions performed, and a flag
marking the one early `return -1` (an inetd connection collected in done is
unregistered).  All other branches fall through to the bottom of the loop. -/
def stepOnce (env : Env) (svc : Svc) : Svc × List Action × Bool :=
  match svc.state with
  | .halted =>
      if svc_enabled env svc then
        (svc_set_state svc .ready, [], false)
      else
        (svc, [], false)
  | .done =>
      if svc_is_inetd_conn svc then
        ({ svc with removed := true }, [], true)
      else if svc_is_changed svc then
        (svc_set_state svc .halted, [], false)
      else
        (svc, [], false)
  | .stopping =>
      if svc.pid = 0 then
        let svc := (service_timeout_cancel svc).1
        match svc.type with
        | .service => (svc_set_state svc .halted, [], false)
        | .inetd => (svc_set_state svc .halted, [], false)
        | _ => (svc_set_state svc .done, [], false)
      else
        (svc, [], false)
  | .ready =>
      if ¬ svc_enabled env svc then
        (svc_set_state svc .halted, [], false)
      else if env.cond = .on then
        if env.in_teardown then
          (svc, [], false)
        else
          let r := service_start env svc
          let svc := r.1
          let acts := r.2.1
          if r.2.2 ≠ 0 then
            let svc := { svc with restart_cnt := svc.restart_cnt + 1 }
            if ¬ svc_is_inetd_conn svc then
              (svc, acts, false)
            else
              (svc_set_state (svc_mark_clean svc) .running, acts, false)
          else
            (svc_set_state (svc_mark_clean svc) .running, acts, false)
      else
        (svc, [], false)
  | .running =>
      if ¬ svc_enabled env svc then
        let r := service_stop svc
        (r.1, r.2.1, false)
      else if svc.pid = 0 ∧ svc_is_daemon svc then
        let svc := svc_set_state (svc_restarting svc) .halted
        ((service_timeout_after svc 1 .retryCb).1, [], false)
      else if svc.pid = 0 ∧ svc_is_inetd_conn svc then
        (svc_set_state svc .stopping, [], false)
      else if svc.pid = 0 ∧ svc_is_runtask svc then
        let svc := svc_set_state svc .stopping
        ({ svc with once := svc.once + 1 }, [], false)
      else
        match env.cond with
        | .off =>
            let r := service_stop svc
            (r.1, r.2.1, false)
        | .flux =>
            (svc_set_state svc .waiting, [Action.signal svc.pid .sigstop], false)
        | .on =>
            if svc_is_changed svc then
              if svc.sighup then
                if env.in_teardown then
                  (svc, [], false)
                else
                  let r := service_restart env svc
                  (svc_mark_clean r.1, r.2.1, false)
              else if svc_is_inetd svc then
                (svc_mark_clean svc, [Action.inetdStopChildren], false)
              else
                let r := service_stop svc
                (svc_mark_clean r.1, r.2.1, false)
            else
              (svc, [], false)
  | .waiting =>
      if ¬ svc_enabled env svc then
        let r := service_stop svc
        (r.1, Action.signal svc.pid .sigcont :: r.2.1, false)
      else if svc.pid = 0 then
        (svc_set_state { svc with restart_cnt := svc.restart_cnt + 1 } .ready,
         [], false)
      else
        match env.cond with
        | .on =>
            let svc2 := svc_set_state svc .running
            let acts :=
              if ¬ svc_is_changed svc2 then [Action.condSetOwn] else []
            (svc2, Action.signal svc.pid .sigcont :: acts, false)
        | .off =>
            let r := service_stop svc
            (r.1, Action.signal svc.pid .sigcont :: r.2.1, false)
        | .flux =>
            (svc, [], false)

/-- The `restart:` loop of `service_step` of service.c: re-run the switch
body until the state no longer changes (fuel bounds the iteration; the chains
the machine can produce are far shorter than the fuel used below).  Returns
the service, the accumulated actions, whether any pass changed the state, and
whether the loop ended in the early `return -1`. -/
def stepLoop (env : Env) : Nat → Svc → List Action → Bool →
    Svc × List Action × Bool × Bool
  | 0, svc, acts, changed => (svc, acts, changed, false)
  | fuel + 1, svc, acts, changed =>
      let old := svc.state
      let r := stepOnce env svc
      if r.2.2 then
        (r.1, acts ++ r.2.1, changed, true)
      else if r.1.state ≠ old then
        stepLoop env fuel r.1 (acts ++ r.2.1) true
      else
        (r.1, acts ++ r.2.1, changed, false)

/-- `service_step` of service.c: drive one service through the state machine
until quiescent; if any pass changed the state, schedule a deferred sweep of
all services (`schedule_work(&work)`). -/
def service_step (env : Env) (svc : Svc) : Svc × List Action :=
  let r := stepLoop env 8 svc [] false
  if r.2.2.2 then
    (r.1, r.2.1)
  else if r.2.2.1 then
    (r.1, r.2.1 ++ [Action.scheduleWork])
  else
    (r.1, r.2.1)

/-- `service_retry` of service.c: retry-timer callback of the crash-respawn
loop.  Cancels its own timeout; if the service is no longer halted with the
restarting block, the crash counter is reset and nothing else happens.  If
`restart_cnt` has reached `RESPAWN_MAX` the service is marked crashing, the
counter reset, and the machine stepped (no further timer is armed).
Otherwise the counter is bumped, the service unblocked and stepped (which
starts it again), and the next retry timeout armed: 2 s while the counter is
at most `RESPAWN_MAX / 2`, 5 s beyond. -/
def service_retry (env : Env) (svc : Svc) : Svc × List Action :=
  let svc := (service_timeout_cancel svc).1
  if ¬ (svc.state = .halted ∧ svc.block = .restarting) then
    ({ svc with restart_cnt := 0 }, [])
  else if RESPAWN_MAX ≤ svc.restart_cnt then
    let svc := { svc_crashing svc with restart_cnt := 0 }
    service_step env svc
  else
    let svc := { svc with restart_cnt := svc.restart_cnt + 1 }
    let svc := svc_unblock svc
    let r := service_step env svc
    let svc := r.1
    let timeout := if svc.restart_cnt ≤ RESPAWN_MAX / 2 then 2000 else 5000
    ((service_timeout_after svc timeout .retryCb).1, r.2)

/-- The core of `service_monitor` of service.c, for a reaped child of a known
service: the pid file of a daemon is removed, the books are updated
(`svc->pid = 0`; the exit `status` itself is recorded by the SIGCHLD
plumbing outside service.c) and the state machine is stepped.  The bootstrap
task cleanup and the global `sm_step` that follow are external to the
per-service machine and not modelled. -/
def service_collect (env : Env) (svc : Svc) (status : Nat) :
    Svc × List Action :=
  let acts := if svc_is_daemon svc then [Action.pidFileRemove] else []
  let r := service_step env { svc with pid := 0, status := status }
  (r.1, acts ++ r.2)

/-- `service_runtask_clean` of service.c: on runlevel change, clear the
`once` flag of every run/task service and lift those parked in done back to
halted. -/
def service_runtask_clean (svcs : List Svc) : List Svc :=
  svcs.map fun svc =>
    if ¬ svc_is_runtask svc then
      svc
    else
      let svc := { svc with once := 0 }
      if svc.state = .done then svc_set_state svc .halted else svc

/-!
## Claim theorems
-/

/-- C1 (counterexample): the claim says the retry timer of the crash-respawn
algorithm is armed at 2 s for the first five retries.  At the very first
crash of a running daemon (restart_cnt = 0, well within the first five
retries) the timer armed for the retry callback is 1 ms, not 2000 ms. -/
theorem crash_respawn_first_timer_1ms :
    ((service_collect
        { in_runlevel := true, cond := .on, in_teardown := false,
          norespawn := false, which := true, fork_pid := 42,
          run_status := 0 }
        { type := .service, state := .running, pid := 100 } 1).1.timer =
      Option.some (1, TimerCb.retryCb)) ∧
    ((service_collect
        { in_runlevel := true, cond := .on, in_teardown := false,
          norespawn := false, which := true, fork_pid := 42,
          run_status := 0 }
        { type := .service, state := .running, pid := 100 } 1).1.restart_cnt
      = 0) ∧
    (1 : Nat) ≠ 2000 := by
  decide

set_option maxHeartbeats 2000000 in
/-- C1 (amended): a daemon collected while running is put in halted with the
restarting block and a 1 ms timer arms the first retry; each firing of the
retry handler below the ceiling increments restart_cnt, restarts the service,
and re-arms the timer at 2 s while restart_cnt is at most five and at 5 s
beyond; once restart_cnt has reached the ceiling of 10 the retry handler
marks the service crashed, resets the counter, and arms no further timer, so
no further automatic start attempt is made. -/
theorem crash_respawn_backoff (p fp st c o rs : Nat) (hp : 1 < p)
    (hfp : 1 < fp) (hc : c < RESPAWN_MAX) (tm : Option (Nat × TimerCb)) :
    (service_collect
        { in_runlevel := true, cond := .on, in_teardown := false,
          norespawn := false, which := true, fork_pid := fp,
          run_status := rs }
        { type := .service, state := .running, pid := p, restart_cnt := c,
          once := o } st =
      ({ type := .service, state := .halted, block := .restarting, pid := 0,
         restart_cnt := c, once := o, status := st,
         timer := Option.some (1, TimerCb.retryCb) },
       [Action.pidFileRemove, Action.scheduleWork])) ∧
    (service_retry
        { in_runlevel := true, cond := .on, in_teardown := false,
          norespawn := false, which := true, fork_pid := fp,
          run_status := rs }
        { type := .service, state := .halted, block := .restarting, pid := 0,
          restart_cnt := c, once := o, status := st, timer := tm } =
      ({ type := .service, state := .running, block := .noBlock, pid := fp,
         restart_cnt := c + 1, once := o, starting := true, status := st,
         timer := Option.some
           (if c + 1 ≤ RESPAWN_MAX / 2 then 2000 else 5000,
            TimerCb.retryCb) },
       [Action.forkExec fp, Action.pidFileCreate, Action.scheduleWork])) ∧
    (service_retry
        { in_runlevel := true, cond := .on, in_teardown := false,
          norespawn := false, which := true, fork_pid := fp,
          run_status := rs }
        { type := .service, state := .halted, block := .restarting, pid := 0,
          restart_cnt := RESPAWN_MAX, once := o, status := st, timer := tm } =
      ({ type := .service, state := .halted, block := .crashing, pid := 0,
         restart_cnt := 0, once := o, status := st, timer := Option.none },
       [])) := by
  have h0 : ¬ p = 0 := by omega
  have hf0 : ¬ fp = 0 := by omega
  have hnc : ¬ RESPAWN_MAX ≤ c := by omega
  refine ⟨?_, ?_, ?_⟩
  · simp [service_collect, service_step, stepLoop, stepOnce, service_stop,
      service_restart, service_start, service_retry, svc_set_state,
      svc_mark_clean, svc_starting, svc_missing, svc_crashing,
      svc_restarting, svc_unblock, service_timeout_after,
      service_timeout_cancel, stateVal, SVC_TERM_TIMEOUT, RESPAWN_MAX,
      svc_is_inetd, svc_is_daemon, svc_is_inetd_conn, svc_is_runtask,
      svc_is_changed, svc_enabled, h0]
  · cases tm <;>
      simp [service_retry, service_step, stepLoop, stepOnce, service_stop,
        service_restart, service_start, svc_set_state, svc_mark_clean,
        svc_starting, svc_missing, svc_crashing, svc_restarting, svc_unblock,
        service_timeout_after, service_timeout_cancel, stateVal,
        SVC_TERM_TIMEOUT, svc_is_inetd, svc_is_daemon, svc_is_inetd_conn,
        svc_is_runtask, svc_is_changed, svc_enabled, hf0, hnc]
  · cases tm <;>
      simp [service_retry, service_step, stepLoop, stepOnce, service_stop,
        service_restart, service_start, svc_set_state, svc_mark_clean,
        svc_starting, svc_missing, svc_crashing, svc_restarting, svc_unblock,
        service_timeout_after, service_timeout_cancel, stateVal,
        SVC_TERM_TIMEOUT, RESPAWN_MAX, svc_is_inetd, svc_is_daemon,
        svc_is_inetd_conn, svc_is_runtask, svc_is_changed, svc_enabled]

/-- C1 (witness): the amended crash-respawn theorem applied at a concrete
service: pid 100 collected, fork yields pid 42, counter at 0. -/
theorem crash_respawn_backoff_witness :
    (service_retry
        { in_runlevel := true, cond := .on, in_teardown := false,
          norespawn := false, which := true, fork_pid := 42,
          run_status := 0 }
        { type := .service, state := .halted, block := .restarting, pid := 0,
          restart_cnt := 0, once := 0, status := 1,
          timer := Option.some (1, TimerCb.retryCb) }).1.restart_cnt = 1 := by
  have h := crash_respawn_backoff 100 42 1 0 0 0 (by decide) (by decide)
    (by decide) (Option.some (1, TimerCb.retryCb))
  rw [h.2.1]

/-- C2 (counterexample): the claim says every transition into stopping arms
a forced-kill timeout.  An inetd listener stopped via `service_stop` enters
the stopping state with no timer armed (`svc_set_state` skips the forced-kill
timeout for inetd services). -/
theorem inetd_stopping_arms_no_timer :
    ((service_stop
        { type := .inetd, state := .running, pid := 0 }).1.state =
      SvcState.stopping) ∧
    ((service_stop
        { type := .inetd, state := .running, pid := 0 }).1.timer =
      Option.none) := by
  decide

/-- C2 (amended): for every service that is not an inetd listener, every
transition into the stopping state (all of which go through `svc_set_state`)
leaves the forced-kill timeout armed: `SVC_TERM_TIMEOUT` ms with callback
`service_kill`, which sends SIGKILL when the process has not been collected
(`pid > 1`) and no signal otherwise. -/
theorem stopping_arms_sigkill_unless_inetd (svc : Svc)
    (hi : ¬ svc_is_inetd svc) :
    ((svc_set_state svc .stopping).state = SvcState.stopping) ∧
    ((svc_set_state svc .stopping).timer =
      Option.some (SVC_TERM_TIMEOUT, TimerCb.killCb)) ∧
    (1 < svc.pid →
      (service_kill (svc_set_state svc .stopping)).2 =
        [Action.signal svc.pid .sigkill]) ∧
    (svc.pid ≤ 1 →
      (service_kill (svc_set_state svc .stopping)).2 = []) := by
  obtain ⟨ty, st, bl, pid, c, o, d, sh, stg, hpf, ib, stt, rm, tm⟩ := svc
  simp only [svc_is_inetd] at hi
  refine ⟨?_, ?_, ?_, ?_⟩
  · cases tm <;>
      simp [svc_set_state, svc_is_inetd, service_timeout_after,
        service_timeout_cancel, hi]
  · cases tm <;>
      simp [svc_set_state, svc_is_inetd, service_timeout_after,
        service_timeout_cancel, hi]
  · intro h2
    have h3 : 1 < pid := h2
    cases tm <;>
      simp [svc_set_state, svc_is_inetd, service_kill, service_timeout_after,
        service_timeout_cancel, hi, show ¬ pid ≤ 1 by omega]
  · intro h2
    have h3 : pid ≤ 1 := h2
    cases tm <;>
      simp [svc_set_state, svc_is_inetd, service_kill, service_timeout_after,
        service_timeout_cancel, hi, h3]

/-- C2 (witness): the amended stopping-timer theorem applied to a concrete
daemon with live pid 7. -/
theorem stopping_arms_sigkill_unless_inetd_witness :
    (svc_set_state { type := .service, state := .running, pid := 7 }
      .stopping).timer = Option.some (SVC_TERM_TIMEOUT, TimerCb.killCb) :=
  (stopping_arms_sigkill_unless_inetd
    { type := .service, state := .running, pid := 7 } (by decide)).2.1

set_option maxHeartbeats 2000000 in
/-- C3: for a running daemon marked changed whose condition aggregate is on
(live process, outside teardown and no-respawn mode), the state machine
sends SIGHUP via `service_restart` when the service declares `sighup`, and
otherwise stops it (SIGTERM, stopping state, forced-kill timer armed) so the
normal halted→ready→running chain restarts it; both paths clear the dirty
mark. -/
theorem running_changed_on_sighup_or_stop (p fp rs : Nat) (hp : 1 < p)
    (tm : Option (Nat × TimerCb)) (sh : Bool) :
    (sh = true →
      service_step
          { in_runlevel := true, cond := .on, in_teardown := false,
            norespawn := false, which := true, fork_pid := fp,
            run_status := rs }
          { type := .service, state := .running, pid := p, dirty := true,
            sighup := sh, timer := tm } =
        ({ type := .service, state := .running, pid := p, dirty := false,
           sighup := sh, starting := true, timer := tm },
         [Action.signal p .hup])) ∧
    (sh = false →
      service_step
          { in_runlevel := true, cond := .on, in_teardown := false,
            norespawn := false, which := true, fork_pid := fp,
            run_status := rs }
          { type := .service, state := .running, pid := p, dirty := true,
            sighup := sh, timer := tm } =
        ({ type := .service, state := .stopping, pid := p, dirty := false,
           sighup := sh,
           timer := Option.some (SVC_TERM_TIMEOUT, TimerCb.killCb) },
         [Action.signal p .term, Action.scheduleWork])) := by
  have h0 : ¬ p = 0 := by omega
  have h1 : ¬ p ≤ 1 := by omega
  constructor
  · intro hsh
    subst hsh
    simp [service_step, stepLoop, stepOnce, service_stop, service_restart,
      service_start, svc_set_state, svc_mark_clean, svc_starting,
      service_timeout_after, service_timeout_cancel, stateVal,
      SVC_TERM_TIMEOUT, svc_is_inetd, svc_is_daemon, svc_is_inetd_conn,
      svc_is_runtask, svc_is_changed, svc_enabled, h0, h1]
  · intro hsh
    subst hsh
    cases tm <;>
      simp [service_step, stepLoop, stepOnce, service_stop, service_restart,
        service_start, svc_set_state, svc_mark_clean, svc_starting,
        service_timeout_after, service_timeout_cancel, stateVal,
        SVC_TERM_TIMEOUT, svc_is_inetd, svc_is_daemon, svc_is_inetd_conn,
        svc_is_runtask, svc_is_changed, svc_enabled, h0, h1]

/-- C3 (witness): the SIGHUP/stop theorem applied at pid 9, for both values
of the sighup flag. -/
theorem running_changed_on_sighup_or_stop_witness :
    (service_step
        { in_runlevel := true, cond := .on, in_teardown := false,
          norespawn := false, which := true, fork_pid := 3,
          run_status := 0 }
        { type := .service, state := .running, pid := 9, dirty := true,
          sighup := true, timer := Option.none }).2 =
      [Action.signal 9 .hup] ∧
    (service_step
        { in_runlevel := true, cond := .on, in_teardown := false,
          norespawn := false, which := true, fork_pid := 3,
          run_status := 0 }
        { type := .service, state := .running, pid := 9, dirty := true,
          sighup := false, timer := Option.none }).2 =
      [Action.signal 9 .term, Action.scheduleWork] := by
  have ha := running_changed_on_sighup_or_stop 9 3 0 (by decide)
    Option.none true
  have hb := running_changed_on_sighup_or_stop 9 3 0 (by decide)
    Option.none false
  rw [ha.1 rfl, hb.2 rfl]
  exact ⟨rfl, rfl⟩

set_option maxHeartbeats 2000000 in
/-- C4: while a reload teardown is in progress, the state machine performs
neither the ready→running start nor the running→running SIGHUP restart: both
service_step calls leave the service (including its dirty mark) and the
world untouched.  With teardown cleared and the same service, the deferred
transition is then performed (start with fork and pid-file creation,
respectively SIGHUP delivery). -/
theorem teardown_defers_start_and_sighup (p p0 fp rs c o : Nat)
    (hp : 1 < p) (hfp : 0 < fp) (tm : Option (Nat × TimerCb)) (d sh : Bool) :
    (service_step
        { in_runlevel := true, cond := .on, in_teardown := true,
          norespawn := false, which := true, fork_pid := fp,
          run_status := rs }
        { type := .service, state := .ready, pid := p0, restart_cnt := c,
          once := o, dirty := d, sighup := sh, timer := tm } =
      ({ type := .service, state := .ready, pid := p0, restart_cnt := c,
         once := o, dirty := d, sighup := sh, timer := tm }, [])) ∧
    (service_step
        { in_runlevel := true, cond := .on, in_teardown := false,
          norespawn := false, which := true, fork_pid := fp,
          run_status := rs }
        { type := .service, state := .ready, pid := p0, restart_cnt := c,
          once := o, dirty := d, sighup := sh, timer := tm } =
      ({ type := .service, state := .running, pid := fp, restart_cnt := c,
         once := o, dirty := false, sighup := sh, starting := true,
         timer := tm },
       [Action.forkExec fp, Action.pidFileCreate, Action.scheduleWork])) ∧
    (service_step
        { in_runlevel := true, cond := .on, in_teardown := true,
          norespawn := false, which := true, fork_pid := fp,
          run_status := rs }
        { type := .service, state := .running, pid := p, restart_cnt := c,
          once := o, dirty := true, sighup := true, timer := tm } =
      ({ type := .service, state := .running, pid := p, restart_cnt := c,
         once := o, dirty := true, sighup := true, timer := tm }, [])) ∧
    (service_step
        { in_runlevel := true, cond := .on, in_teardown := false,
          norespawn := false, which := true, fork_pid := fp,
          run_status := rs }
        { type := .service, state := .running, pid := p, restart_cnt := c,
          once := o, dirty := true, sighup := true, timer := tm } =
      ({ type := .service, state := .running, pid := p, restart_cnt := c,
         once := o, dirty := false, sighup := true, starting := true,
         timer := tm },
       [Action.signal p .hup])) := by
  have h0 : ¬ p = 0 := by omega
  have h1 : ¬ p ≤ 1 := by omega
  have hf0 : ¬ fp = 0 := by omega
  refine ⟨?_, ?_, ?_, ?_⟩ <;>
    simp [service_step, stepLoop, stepOnce, service_stop, service_restart,
      service_start, svc_set_state, svc_mark_clean, svc_starting,
      service_timeout_after, service_timeout_cancel, stateVal,
      SVC_TERM_TIMEOUT, svc_is_inetd, svc_is_daemon, svc_is_inetd_conn,
      svc_is_runtask, svc_is_changed, svc_enabled, h0, h1, hf0]

/-- C4 (witness): the teardown-deferral theorem at a concrete service:
pid 9, fork pid 3, counter and once at 0, clean and sighup-capable. -/
theorem teardown_defers_start_and_sighup_witness :
    service_step
        { in_runlevel := true, cond := .on, in_teardown := true,
          norespawn := false, which := true, fork_pid := 3,
          run_status := 0 }
        { type := .service, state := .ready, pid := 0, restart_cnt := 0,
          once := 0, dirty := false, sighup := true, timer := Option.none } =
      ({ type := .service, state := .ready, pid := 0, restart_cnt := 0,
         once := 0, dirty := false, sighup := true, timer := Option.none },
       []) :=
  (teardown_defers_start_and_sighup 9 0 3 0 0 0 (by decide) (by decide)
    Option.none false true).1

set_option maxHeartbeats 2000000 in
/-- C5: a running daemon with a live process whose condition aggregate goes
to flux is sent SIGSTOP and moved to waiting; when the aggregate returns to
on while waiting, it is sent SIGCONT and moved back to running (its own pid
condition is reasserted); neither step of the freeze/thaw cycle sends
SIGKILL or SIGTERM to any process. -/
theorem flux_freeze_thaw_no_kill (p fp rs c o : Nat) (hp : 1 < p)
    (tm : Option (Nat × TimerCb)) (sh : Bool) :
    (service_step
        { in_runlevel := true, cond := .flux, in_teardown := false,
          norespawn := false, which := true, fork_pid := fp,
          run_status := rs }
        { type := .service, state := .running, pid := p, restart_cnt := c,
          once := o, sighup := sh, timer := tm } =
      ({ type := .service, state := .waiting, pid := p, restart_cnt := c,
         once := o, sighup := sh, timer := tm },
       [Action.signal p .sigstop, Action.scheduleWork])) ∧
    (service_step
        { in_runlevel := true, cond := .on, in_teardown := false,
          norespawn := false, which := true, fork_pid := fp,
          run_status := rs }
        { type := .service, state := .waiting, pid := p, restart_cnt := c,
          once := o, sighup := sh, timer := tm } =
      ({ type := .service, state := .running, pid := p, restart_cnt := c,
         once := o, sighup := sh, timer := tm },
       [Action.signal p .sigcont, Action.condSetOwn,
        Action.scheduleWork])) ∧
    (∀ q : Nat,
      Action.signal q .sigkill ∉
        [Action.signal p .sigstop, Action.scheduleWork] ∧
      Action.signal q .term ∉
        [Action.signal p .sigstop, Action.scheduleWork] ∧
      Action.signal q .sigkill ∉
        [Action.signal p .sigcont, Action.condSetOwn,
         Action.scheduleWork] ∧
      Action.signal q .term ∉
        [Action.signal p .sigcont, Action.condSetOwn,
         Action.scheduleWork]) := by
  have h0 : ¬ p = 0 := by omega
  have h1 : ¬ p ≤ 1 := by omega
  refine ⟨?_, ?_, ?_⟩
  · simp [service_step, stepLoop, stepOnce, service_stop, service_restart,
      service_start, svc_set_state, svc_mark_clean, svc_starting,
      service_timeout_after, service_timeout_cancel, stateVal,
      SVC_TERM_TIMEOUT, svc_is_inetd, svc_is_daemon, svc_is_inetd_conn,
      svc_is_runtask, svc_is_changed, svc_enabled, h0, h1]
  · simp [service_step, stepLoop, stepOnce, service_stop, service_restart,
      service_start, svc_set_state, svc_mark_clean, svc_starting,
      service_timeout_after, service_timeout_cancel, stateVal,
      SVC_TERM_TIMEOUT, svc_is_inetd, svc_is_daemon, svc_is_inetd_conn,
      svc_is_runtask, svc_is_changed, svc_enabled, h0, h1]
  · intro q
    simp

/-- C5 (witness): freeze/thaw applied at pid 9. -/
theorem flux_freeze_thaw_no_kill_witness :
    (service_step
        { in_runlevel := true, cond := .flux, in_teardown := false,
          norespawn := false, which := true, fork_pid := 3,
          run_status := 0 }
        { type := .service, state := .running, pid := 9, restart_cnt := 0,
          once := 0, sighup := false, timer := Option.none }).2 =
      [Action.signal 9 .sigstop, Action.scheduleWork] := by
  have h := flux_freeze_thaw_no_kill 9 3 0 0 0 (by decide) Option.none false
  rw [h.1]

/-- C6 (counterexample): the claim says a failed start on a missing binary
does not increment restart_cnt.  Stepping an enabled halted daemon whose
binary does not resolve in PATH marks it missing and increments restart_cnt
from 0 to 1 (the `err` branch of the ready state in `service_step`). -/
theorem missing_binary_increments_restart_cnt :
    ((service_step
        { in_runlevel := true, cond := .on, in_teardown := false,
          norespawn := false, which := false, fork_pid := 0,
          run_status := 0 }
        { type := .service, state := .halted }).1.restart_cnt = 1) ∧
    ((service_step
        { in_runlevel := true, cond := .on, in_teardown := false,
          norespawn := false, which := false, fork_pid := 0,
          run_status := 0 }
        { type := .service, state := .halted }).1.block =
      SvcBlock.missing) ∧
    ¬ ((service_step
        { in_runlevel := true, cond := .on, in_teardown := false,
          norespawn := false, which := false, fork_pid := 0,
          run_status := 0 }
        { type := .service, state := .halted }).1.restart_cnt = 0) := by
  decide

set_option maxHeartbeats 2000000 in
/-- C6 (amended): when the binary of an enabled daemon cannot be resolved in
PATH, the start is refused: the service is marked missing, no process is
forked (pid stays 0, no fork action), and the failed attempt increments
restart_cnt by one; the sweep leaves it in ready, and because the missing
block disables it, the following sweep takes it back to halted. -/
theorem missing_binary_marks_and_counts (c o : Nat) (d sh : Bool)
    (tm : Option (Nat × TimerCb)) :
    (service_step
        { in_runlevel := true, cond := .on, in_teardown := false,
          norespawn := false, which := false, fork_pid := 0,
          run_status := 0 }
        { type := .service, state := .halted, restart_cnt := c, once := o,
          dirty := d, sighup := sh, timer := tm } =
      ({ type := .service, state := .ready, block := .missing, pid := 0,
         restart_cnt := c + 1, once := o, dirty := d, sighup := sh,
         timer := tm },
       [Action.scheduleWork])) ∧
    (service_step
        { in_runlevel := true, cond := .on, in_teardown := false,
          norespawn := false, which := false, fork_pid := 0,
          run_status := 0 }
        { type := .service, state := .ready, block := .missing, pid := 0,
          restart_cnt := c + 1, once := o, dirty := d, sighup := sh,
          timer := tm } =
      ({ type := .service, state := .halted, block := .missing, pid := 0,
         restart_cnt := c + 1, once := o, dirty := d, sighup := sh,
         timer := tm },
       [Action.scheduleWork])) := by
  constructor <;>
    simp [service_step, stepLoop, stepOnce, service_stop, service_restart,
      service_start, svc_set_state, svc_mark_clean, svc_starting,
      svc_missing, service_timeout_after, service_timeout_cancel, stateVal,
      SVC_TERM_TIMEOUT, svc_is_inetd, svc_is_daemon, svc_is_inetd_conn,
      svc_is_runtask, svc_is_changed, svc_enabled]

/-- C7 (counterexample): the claim says stopping a service whose pid is ≤ 1
reports success.  For a running daemon with pid 0 (already collected),
`service_stop` sends no signal but returns 1, not 0. -/
theorem stop_running_pid0_reports_failure :
    ((service_stop
        { type := .service, state := .running, pid := 0 }).2.2 = 1) ∧
    ((service_stop
        { type := .service, state := .running, pid := 0 }).2.1 = []) ∧
    ¬ ((service_stop
        { type := .service, state := .running, pid := 0 }).2.2 = 0) := by
  decide

/-- C7 (amended): stopping a non-inetd service whose pid is ≤ 1 never
signals any process: when the state is already at or below stopping the call
is a complete no-op returning 0; in the remaining states it returns 1
(failure) after cancelling any pending timer, changing nothing else. -/
theorem stop_without_pid_behavior (svc : Svc) (hp : svc.pid ≤ 1)
    (hi : ¬ svc_is_inetd svc) :
    (stateVal svc.state ≤ stateVal .stopping →
      service_stop svc = (svc, [], 0)) ∧
    (¬ stateVal svc.state ≤ stateVal .stopping →
      service_stop svc = ((service_timeout_cancel svc).1, [], 1)) := by
  obtain ⟨ty, st, bl, pid, c, o, d, sh, stg, hpf, ib, stt, rm, tm⟩ := svc
  simp only [svc_is_inetd] at hi
  have hp2 : pid ≤ 1 := hp
  constructor <;> intro h <;> cases st <;> simp [stateVal] at h <;>
    cases tm <;>
      simp [service_stop, service_timeout_cancel, svc_set_state, stateVal,
        svc_is_inetd, hi, hp2]

/-- C7 (witness): the stop-without-pid theorem applied to a halted daemon
with pid 0 (returns 0) and, through its second branch, nothing to show. -/
theorem stop_without_pid_behavior_witness :
    service_stop { type := .service, state := .halted, pid := 0 } =
      ({ type := .service, state := .halted, pid := 0 }, [], 0) :=
  (stop_without_pid_behavior { type := .service, state := .halted, pid := 0 }
    (by decide) (by decide)).1 (by decide)

/-- C8 (counterexample): the claim says `once` is set exactly on successful
(zero exit status) completion.  A task collected with exit status 3 still
gets `once` bumped to 1. -/
theorem once_set_on_nonzero_exit :
    ((service_collect
        { in_runlevel := true, cond := .on, in_teardown := false,
          norespawn := false, which := true, fork_pid := 9,
          run_status := 0 }
        { type := .task, state := .running, pid := 77 } 3).1.once = 1) ∧
    ((service_collect
        { in_runlevel := true, cond := .on, in_teardown := false,
          norespawn := false, which := true, fork_pid := 9,
          run_status := 0 }
        { type := .task, state := .running, pid := 77 } 3).1.status = 3) ∧
    (3 : Nat) ≠ 0 := by
  decide

set_option maxHeartbeats 2000000 in
/-- C8 (amended): `once` is incremented on every completion of a run/task in
the current runlevel regardless of exit status — a task collected with any
exit status, and a sequential run command exiting nonzero, both bump `once`
by one — and `service_runtask_clean` (invoked on runlevel change) resets
`once` to 0 for every run/task service, lifting those in done back to
halted. -/
theorem once_bumped_on_any_completion_and_cleared (p st c o fp rs : Nat)
    (hrs : ¬ rs = 0) (tm : Option (Nat × TimerCb)) :
    (service_collect
        { in_runlevel := true, cond := .on, in_teardown := false,
          norespawn := false, which := true, fork_pid := fp,
          run_status := rs }
        { type := .task, state := .running, pid := p, restart_cnt := c,
          once := o, timer := tm } st =
      ({ type := .task, state := .done, pid := 0, restart_cnt := c,
         once := o + 1, status := st, timer := Option.none },
       [Action.scheduleWork])) ∧
    (service_step
        { in_runlevel := true, cond := .on, in_teardown := false,
          norespawn := false, which := true, fork_pid := fp,
          run_status := rs }
        { type := .run, state := .ready, pid := 0, restart_cnt := c,
          once := o, timer := tm } =
      ({ type := .run, state := .done, pid := 0, restart_cnt := c + 1,
         once := o + 1, starting := true, timer := Option.none },
       [Action.forkExec fp, Action.scheduleWork])) ∧
    (∀ (svcs : List Svc) (s : Svc), s ∈ service_runtask_clean svcs →
      svc_is_runtask s → s.once = 0 ∧ ¬ s.state = .done) := by
  refine ⟨?_, ?_, ?_⟩
  · cases tm <;>
      simp [service_collect, service_step, stepLoop, stepOnce, service_stop,
        service_restart, service_start, svc_set_state, svc_mark_clean,
        svc_starting, service_timeout_after, service_timeout_cancel,
        stateVal, SVC_TERM_TIMEOUT, svc_is_inetd, svc_is_daemon,
        svc_is_inetd_conn, svc_is_runtask, svc_is_changed, svc_enabled]
  · cases tm <;>
      simp [service_step, stepLoop, stepOnce, service_stop, service_restart,
        service_start, svc_set_state, svc_mark_clean, svc_starting,
        service_timeout_after, service_timeout_cancel, stateVal,
        SVC_TERM_TIMEOUT, svc_is_inetd, svc_is_daemon, svc_is_inetd_conn,
        svc_is_runtask, svc_is_changed, svc_enabled, hrs]
  · intro svcs s hs hrt
    simp only [service_runtask_clean, List.mem_map] at hs
    obtain ⟨t, ht, rfl⟩ := hs
    by_cases h : svc_is_runtask t
    · by_cases hd : t.state = .done <;>
        simp [h, hd, svc_set_state, svc_is_inetd]
    · simp [h] at hrt ⊢

/-- C8 (witness): the once-on-any-completion theorem applied at a concrete
task (exit status 7) and run (exit status 3). -/
theorem once_bumped_on_any_completion_and_cleared_witness :
    (service_collect
        { in_runlevel := true, cond := .on, in_teardown := false,
          norespawn := false, which := true, fork_pid := 9,
          run_status := 3 }
        { type := .task, state := .running, pid := 5, restart_cnt := 0,
          once := 0, timer := Option.none } 7).1.once = 1 := by
  have h := once_bumped_on_any_completion_and_cleared 5 7 0 0 9 3
    (by decide) Option.none
  rw [h.1]

/-- C9 (counterexample): the claim says arming a timeout for a service with
a pending timer replaces the pending one.  With the forced-kill timer
pending, `service_timeout_after` returns -EBUSY and the old timer stays;
the new one is not installed. -/
theorem timeout_after_does_not_replace :
    ((service_timeout_after
        { type := .service, timer := Option.some (5000, TimerCb.killCb) }
        2000 TimerCb.retryCb).1.timer =
      Option.some (5000, TimerCb.killCb)) ∧
    ((service_timeout_after
        { type := .service, timer := Option.some (5000, TimerCb.killCb) }
        2000 TimerCb.retryCb).2 = -16) ∧
    ¬ ((service_timeout_after
        { type := .service, timer := Option.some (5000, TimerCb.killCb) }
        2000 TimerCb.retryCb).1.timer =
      Option.some (2000, TimerCb.retryCb)) := by
  decide

/-- C9 (amended): each service has a single timer slot, so at most one timer
is ever outstanding; arming while a timer is pending fails with -EBUSY and
leaves both the service and the pending timer untouched; replacement is
obtained by cancelling first (as `svc_set_state` does), after which arming
always succeeds with the new timeout and callback. -/
theorem timer_slot_refuses_when_busy (svc : Svc) (t : Nat) (cb : TimerCb)
    (e : Nat × TimerCb) (hb : svc.timer = Option.some e) :
    (service_timeout_after svc t cb = (svc, -16)) ∧
    ((service_timeout_cancel svc).1.timer = Option.none) ∧
    (service_timeout_after (service_timeout_cancel svc).1 t cb =
      ({ svc with timer := Option.some (t, cb) }, 0)) := by
  obtain ⟨ty, st, bl, pid, c, o, d, sh, stg, hpf, ib, stt, rm, tm⟩ := svc
  have hb2 : tm = Option.some e := hb
  subst hb2
  simp [service_timeout_after, service_timeout_cancel]

/-- C9 (witness): the single-timer-slot theorem applied to a service whose
forced-kill timer is pending. -/
theorem timer_slot_refuses_when_busy_witness :
    service_timeout_after
        { type := .service, timer := Option.some (7000, TimerCb.killCb) }
        2000 TimerCb.retryCb =
      ({ type := .service, timer := Option.some (7000, TimerCb.killCb) },
       -16) :=
  (timer_slot_refuses_when_busy
    { type := .service, timer := Option.some (7000, TimerCb.killCb) }
    2000 TimerCb.retryCb (7000, TimerCb.killCb) rfl).1

end Finit
